import Mathlib

/-!
Verification development for the CredBazar form-collector server
(`src/server/test-smtp.js`).  The definitions below are a shallow embedding
of the server's data model and operations:

* the in-memory OTP store (`otpStore`, a `Map` from mobile number to
  `{otp, timestamp, attempts, verified}`) and the three routes that touch
  it (`/send-otp`, `/verify-otp`, the OTP gate of `/submit-loan`);
* the daily Excel ledger writer `appendToDailyExcel` and the
  `repairXlsxFile` maintenance operation (worksheets are modelled as a
  header row of string cells plus a list of data rows of string cells);
* the e-mail concurrency gate (`acquireEmailSlot` / `releaseEmailSlot`)
  and the retrying sender `sendWithRetry` / `sendDailyEmailForDate`.

Timestamps are modelled as natural numbers of milliseconds produced by a
monotone `Date.now()` clock, strings stand for JavaScript strings, and
`Option`/sum types stand for the untyped success/error objects the routes
return.
-/

/-- JavaScript `String.prototype.trim()`: strip leading and trailing
whitespace.  (The JS definition also strips a few non-ASCII space code
points; the strings this server handles are ASCII.)  Defined on the
character list by structural recursion so that it evaluates inside
`decide`. -/
def jsTrim (s : String) : String :=
  ⟨((s.data.dropWhile Char.isWhitespace).reverse.dropWhile Char.isWhitespace).reverse⟩

/-- One entry of `otpStore`: the object stored by `/send-otp`
(`{ otp, timestamp, attempts, verified }`, lines 301-306). -/
structure OtpData where
  otp : String
  timestamp : Nat
  attempts : Nat
  verified : Bool
deriving DecidableEq, Repr

/-- The in-memory `otpStore` `Map`, modelled as an association list with
at most one entry per mobile number. -/
def Store := List (String × OtpData)
deriving DecidableEq

/-- `otpStore.get(m)`. -/
def getOtp : Store → String → Option OtpData
  | [], _ => none
  | (k, d) :: rest, m => if k = m then some d else getOtp rest m

/-- `otpStore.set(m, d)` (also covers the in-place mutation of a record
obtained from the map, since the map holds the same object). -/
def setOtp : Store → String → OtpData → Store
  | [], m, d => [(m, d)]
  | (k, e) :: rest, m, d => if k = m then (m, d) :: rest else (k, e) :: setOtp rest m d

/-- `otpStore.delete(m)`. -/
def delOtp : Store → String → Store
  | [], _ => []
  | (k, e) :: rest, m => if k = m then delOtp rest m else (k, e) :: delOtp rest m

/-- Outcome of `POST /verify-otp` (lines 329-369): the distinct JSON error
responses, plus `ok` for the success path. -/
inductive VerifyResult
  /-- 400 `Mobile and OTP required` (line 334). -/
  | required
  /-- 400 `OTP expired or not sent` - no record in the store (line 340). -/
  | notFound
  /-- 400 `OTP expired` - record older than 10 minutes (line 346). -/
  | expired
  /-- 400 `Too many attempts. Request new OTP` (line 352). -/
  | tooManyAttempts
  /-- 400 `Invalid OTP` (line 358). -/
  | mismatch
  /-- 200 `OTP verified successfully` (line 364). -/
  | ok
deriving DecidableEq, Repr

/-- `POST /verify-otp` (lines 329-369).  Returns the response outcome and
the store afterwards.  `now` is `Date.now()`.  JavaScript's
`Date.now() - otpData.timestamp > 10 * 60 * 1000` agrees with the
truncated `Nat` subtraction used here whenever `now >= timestamp`, and
both sides are `false` when `now < timestamp`. -/
def verifyOtp (s : Store) (now : Nat) (mobile otp : String) : VerifyResult × Store :=
  if mobile = "" ∨ otp = "" then (.required, s)
  else
    match getOtp s mobile with
    | none => (.notFound, s)
    | some d =>
      if now - d.timestamp > 10 * 60 * 1000 then (.expired, delOtp s mobile)
      else if d.attempts ≥ 3 then (.tooManyAttempts, delOtp s mobile)
      else if d.otp ≠ jsTrim otp then
        (.mismatch, setOtp s mobile { d with attempts := d.attempts + 1 })
      else (.ok, setOtp s mobile { d with verified := true })

/-- The mobile-number validation of `/send-otp`: `/^[0-9]{10}$/` (line 279). -/
def validMobile (m : String) : Bool :=
  m.length == 10 && m.toList.all (fun c => c.isDigit)

/-- `OTP_RESEND_COOLDOWN = 2 * 60 * 1000` (line 267). -/
def OTP_RESEND_COOLDOWN : Nat := 2 * 60 * 1000

/-- `Math.ceil((OTP_RESEND_COOLDOWN - timeSinceLastOTP) / 1000)` (line 288),
for `timeSinceLastOTP < OTP_RESEND_COOLDOWN`; the ceiling of division by
1000 of a non-negative integer `x` is `(x + 999) / 1000`. -/
def cooldownRemaining (elapsed : Nat) : Nat :=
  (OTP_RESEND_COOLDOWN - elapsed + 999) / 1000

/-- Outcome of `POST /send-otp` (lines 274-326). -/
inductive SendResult
  /-- 400 `Invalid mobile number` (line 280). -/
  | invalidMobile
  /-- 429 with `remainingTime` seconds (lines 289-293). -/
  | rateLimited (remainingSeconds : Nat)
  /-- 200 `OTP sent successfully` (the demo third-party sender of
  `sendOTPViaThirdParty` always succeeds, line 377). -/
  | sent
deriving DecidableEq, Repr

/-- `POST /send-otp` (lines 274-326).  `newOtp` stands for the value the
random `generateOTP()` call produced. -/
def sendOtp (s : Store) (now : Nat) (mobile newOtp : String) : SendResult × Store :=
  if ¬ validMobile mobile then (.invalidMobile, s)
  else
    match getOtp s mobile with
    | some d =>
      if now - d.timestamp < OTP_RESEND_COOLDOWN then
        (.rateLimited (cooldownRemaining (now - d.timestamp)), s)
      else (.sent, setOtp s mobile ⟨newOtp, now, 0, false⟩)
    | none => (.sent, setOtp s mobile ⟨newOtp, now, 0, false⟩)

/-- Outcome of `POST /submit-loan` (lines 412-442), restricted to the OTP
gate and the ledger append (the subsequent e-mail send does not touch the
store and never changes the `ok` flag of the response). -/
inductive SubmitResult
  /-- 400 `Mobile number not verified` (line 419). -/
  | notVerified
  /-- 200 `ok: true` - append succeeded, record cleared (lines 426-437). -/
  | accepted
  /-- 500 - `appendToDailyExcel` threw, the `catch` at line 438 answers. -/
  | appendFailed
deriving DecidableEq, Repr

/-- The store-relevant behaviour of `POST /submit-loan` (lines 412-442).
`appendOk` records whether `appendToDailyExcel` succeeded; when it throws,
control jumps to the `catch` block and `otpStore.delete(mobile)` at line
426 is never executed. -/
def submitLoan (s : Store) (mobile : String) (appendOk : Bool) : SubmitResult × Store :=
  match getOtp s mobile with
  | none => (.notVerified, s)
  | some d =>
    if ¬ d.verified then (.notVerified, s)
    else if appendOk then (.accepted, delOtp s mobile)
    else (.appendFailed, s)

/-! ## The daily Excel ledger

A worksheet is modelled as its header row (the cells of row 1, i.e. the
`row.values.slice(1)` of ExcelJS, with `null`/`undefined` cells rendered
as the empty string) plus its data rows (rows 2..rowCount).  All cells the
server writes are strings. -/

/-- One worksheet of a daily ledger file.  The files this server writes
contain a single worksheet named `submissions`, so a ledger file is one
`Sheet`; `repairXlsxFile` iterates over all worksheets of a workbook and
is modelled over `List Sheet`. -/
structure Sheet where
  header : List String
  rows : List (List String)
deriving DecidableEq, Repr

/-- JavaScript `record[h] || ''` on an object modelled as an association
list: the value stored under `h`, or the empty string when the key is
missing (and also when the stored value is the empty string, which is
falsy). -/
def getField : List (String × String) → String → String
  | [], _ => ""
  | (k, v) :: rest, h => if k = h then v else getField rest h

/-- `Array.from(new Set(list))`: deduplicate keeping the first-occurrence
order. -/
def dedupFirst (l : List String) : List String :=
  l.foldl (fun acc x => if acc.contains x then acc else acc ++ [x]) []

/-- The `fs.existsSync` branch of `appendToDailyExcel` (lines 94-140).
This branch is UNREACHABLE in the source: the guard at line 94 is
`if (false && fs.existsSync(fname))`.  It is embedded here so that the
intended read-reconcile-rewrite behaviour can be compared with the spec.
(The modelling assumes the existing file has a non-empty header row;
with an empty first row the JS code would throw a `TypeError` at line
100-101, `(false).filter` - another defect of the dead branch.) -/
def appendMerge (ef : Sheet) (record : List (String × String)) (now : String) : Sheet :=
  -- lines 99-101: headers read from the first row, empties dropped
  let existingHeaders := ef.header.filter (· ≠ "")
  -- lines 103-106: union with the incoming keys, trimmed, `added_at` ensured
  let incomingKeys := record.map Prod.fst
  let allHeaders0 := (dedupFirst (existingHeaders ++ incomingKeys)).map jsTrim
  let allHeaders1 := allHeaders0.filter (· ≠ "")
  let allHeaders := if allHeaders1.contains "added_at" then allHeaders1
    else allHeaders1 ++ ["added_at"]
  -- lines 109-120: existing data rows mapped back onto `existingHeaders`
  -- (cells beyond the header width are dropped, missing cells become "")
  let existingData := (ef.rows.map (fun vals =>
      existingHeaders.zip (vals ++ List.replicate (existingHeaders.length - vals.length) "")))
    |>.filter (fun mapped => mapped.any (fun p => p.2 ≠ ""))
  -- lines 132-136: previous rows re-aligned to `allHeaders`
  let realigned := existingData.map (fun prev => allHeaders.map (fun h => getField prev h))
  -- lines 138-140: the new record appended with `added_at = now`
  let newRow := allHeaders.map (fun h => if h = "added_at" then now else getField record h)
  ⟨allHeaders, realigned ++ [newRow]⟩

/-- The `else` branch of `appendToDailyExcel` (lines 141-153): build a
fresh single-worksheet workbook containing only the incoming record. -/
def appendFresh (record : List (String × String)) (now : String) : Sheet :=
  let headers := ((record.map Prod.fst).map jsTrim).filter (· ≠ "") ++ ["added_at"]
  let rowValues := headers.map (fun h => if h = "added_at" then now else getField record h)
  ⟨headers, [rowValues]⟩

/-- `appendToDailyExcel(record, date)` (lines 89-157).  `existing` is the
ledger file currently on disk for the date (`none` when absent); `now`
is the `new Date().toISOString()` stamp.  The guard at line 94 is
literally `false && fs.existsSync(fname)`, so the merge branch is dead
and every call rewrites the file from scratch. -/
def appendToDailyExcel (record : List (String × String)) (now : String)
    (existing : Option Sheet) : Sheet :=
  if false && existing.isSome then appendMerge (existing.getD ⟨[], []⟩) record now
  else appendFresh record now

/-! ## Repairing shifted ledger files -/

/-- First cell of a row (`firstRowVals[1]` in ExcelJS's 1-indexed
`values`); a missing cell reads as the empty string. -/
def firstCell (l : List String) : String := l.getD 0 ""

/-- Second cell of a row (`firstRowVals[2]`). -/
def secondCell (l : List String) : String := l.getD 1 ""

/-- The corruption signature tested at line 467: first header cell
`null`/`''`/`undefined` while the second is truthy (for string cells:
non-empty). -/
def hasShiftPattern (ws : Sheet) : Bool :=
  firstCell ws.header == "" && secondCell ws.header != ""

/-- The per-worksheet body of `repairXlsxFile` (lines 464-500): when the
shift pattern is detected, rebuild the sheet with the trimmed non-empty
header cells and the data rows shifted left by one cell when the header
lost exactly one cell (padding short rows with empty cells); otherwise
leave the sheet alone.  Returns the resulting sheet and the `changed`
flag.

When every old header cell trims away (`newHeaders = []`), the loop at
lines 486-488 writes no cell into row 1 of the rebuilt worksheet (and
`newWs.columns = []` writes nothing either), so the worksheet has no
rows yet and ExcelJS's `addRow` - which appends at `_rows.length + 1` -
places the first processed data row into row 1.  Under this file's
convention (row 1 is the header, rows 2.. are data) that first row
therefore becomes the header of the written sheet and the remaining
rows follow as data rows. -/
def repairSheet (ws : Sheet) : Sheet × Bool :=
  if hasShiftPattern ws then
    let oldHeaders := ws.header
    let newHeaders := (oldHeaders.map jsTrim).filter (· ≠ "")
    let shift := if oldHeaders.length = newHeaders.length + 1 then 1 else 0
    let newRows := ws.rows.map (fun vals =>
      let shifted := vals.drop shift
      shifted ++ List.replicate (newHeaders.length - shifted.length) "")
    if newHeaders = [] then (⟨newRows.headD [], newRows.tail⟩, true)
    else (⟨newHeaders, newRows⟩, true)
  else (ws, false)

/-- `repairXlsxFile(filePath)` (lines 459-504): process every worksheet
of the workbook; the file is rewritten only when some sheet changed (and
an unchanged sheet is returned as-is, so the resulting workbook equals
the input whenever `changed` is `false`).  Returns the workbook on disk
afterwards and the `changed` flag the function returns. -/
def repairXlsxFile (wb : List Sheet) : List Sheet × Bool :=
  (wb.map (fun ws => (repairSheet ws).1), wb.any (fun ws => (repairSheet ws).2))

/-! ## The e-mail concurrency gate

`emailActive` / `emailQueue` (lines 177-198), modelled as an explicit
state.  Queued callers are identified by arbitrary natural-number tags;
`emailQueue.push(resolve)` appends at the tail and `emailQueue.shift()`
removes at the head. -/

/-- The gate's shared state: `emailActive` and `emailQueue`. -/
structure Gate where
  active : Nat
  queue : List Nat
deriving DecidableEq, Repr

/-- `acquireEmailSlot()` (lines 181-189): if a slot is free the caller is
admitted at once (`emailActive += 1`); otherwise its `resolve` callback is
pushed at the tail of `emailQueue`.  `limit` is `EMAIL_CONCURRENCY`
(default 2, line 177); `w` tags the caller. -/
def acquireEmailSlot (limit : Nat) (g : Gate) (w : Nat) : Gate :=
  if g.active < limit then { g with active := g.active + 1 }
  else { g with queue := g.queue ++ [w] }

/-- `releaseEmailSlot()` (lines 191-198): `emailActive = max(0,
emailActive - 1)` (this is `Nat` truncated subtraction), then if waiters
exist the head of the queue is resumed and `emailActive` re-incremented.
Returns the new state and the resumed waiter, if any. -/
def releaseEmailSlot (g : Gate) : Gate × Option Nat :=
  let a := g.active - 1
  match g.queue with
  | [] => (⟨a, []⟩, none)
  | w :: rest => (⟨a + 1, rest⟩, some w)

/-- The states of the gate reachable by any interleaving of the two
operations, starting from `emailActive = 0`, `emailQueue = []`.  A
release step requires `1 ≤ active` because `releaseEmailSlot` is only
ever invoked from the `finally` of `sendDailyEmailForDate`, i.e. by a
caller currently holding a slot. -/
inductive GateReach (limit : Nat) : Gate → Prop
  | init : GateReach limit ⟨0, []⟩
  | acquire (g : Gate) (w : Nat) : GateReach limit g →
      GateReach limit (acquireEmailSlot limit g w)
  | release (g : Gate) : GateReach limit g → 1 ≤ g.active →
      GateReach limit (releaseEmailSlot g).1

/-! ## The retrying sender -/

/-- Helper for `sendWithRetry`: the `for` loop of lines 207-217 starting
at iteration `i` with `remaining` iterations left and `lastErr` as the
last error seen.  `oracle j` is the outcome `transporter.sendMail`
produces on attempt `j` (`.ok info` or `.error message`).  Returns the
function's result (`{ok:true, info}` / `{ok:false, error:lastErr}`) and
the list of back-off sleeps performed, in order. -/
def sendWithRetryGo (oracle : Nat → Except String String) :
    Nat → Nat → Option String → (Except (Option String) String) × List Nat
  | _, 0, lastErr => (.error lastErr, [])
  | i, r + 1, _ =>
    match oracle i with
    | .ok info => (.ok info, [])
    | .error e =>
      let rest := sendWithRetryGo oracle (i + 1) r (some e)
      (rest.1, (2 ^ i * 1000) :: rest.2)

/-- `sendWithRetry(transporter, mailOptions, attempts)` (lines 205-219):
up to `attempts` tries; a success returns immediately; each failure
stores the error and sleeps `2^i * 1000` ms before the next iteration
(also after the last failed attempt, since the sleep precedes the loop
test).  Result plus the back-off sleeps performed. -/
def sendWithRetry (oracle : Nat → Except String String) (attempts : Nat) :
    (Except (Option String) String) × List Nat :=
  sendWithRetryGo oracle 0 attempts none

/-- Outcome of `sendDailyEmailForDate` (lines 221-253). -/
inductive DailyResult
  /-- `{ok:false, message:'No file'}` (line 225). -/
  | noFile
  /-- `{ok:true, file, info}` (line 249). -/
  | okSent
  /-- `{ok:false, error}` after all retries failed (line 246). -/
  | failedSend (e : Option String)
deriving DecidableEq, Repr

/-- `sendDailyEmailForDate(date)` (lines 221-253) as a state function on
the gate, for the case where admission is immediate (`emailActive <
limit`); when the gate is full the caller suspends inside
`acquireEmailSlot` and its later resumption is covered by the `GateReach`
step relation, so that case is returned as `none` here.  The body runs
`sendWithRetry` and releases the slot in a `finally`, i.e. regardless of
the result. -/
def sendDailyEmailForDate (limit : Nat) (g : Gate) (fileExists : Bool)
    (oracle : Nat → Except String String) (retries : Nat) :
    Option (DailyResult × Gate) :=
  if !fileExists then some (.noFile, g)
  else if g.active < limit then
    let g1 : Gate := { g with active := g.active + 1 }
    let r := (sendWithRetry oracle retries).1
    let g2 := (releaseEmailSlot g1).1
    some (match r with
      | .ok _ => .okSent
      | .error e => .failedSend e, g2)
  else none

/-! ## Claim theorems -/

/-- C1: row-count monotonicity fails in the code.  Because the guard at
line 94 is `false && fs.existsSync(fname)`, the merge branch never runs
and every append rewrites the day's file as a fresh single-row workbook:
after a second successful append to the same date the file holds exactly
one data row, not two. -/
theorem append_overwrites_prior_rows :
    (appendToDailyExcel [("Mobile", "8888888888")] "2025-01-01T10:00:00.000Z"
        (some (appendToDailyExcel [("Mobile", "9999999999")] "2025-01-01T09:00:00.000Z"
          none))).rows.length = 1 := by decide

/-- C2: schema-order monotonicity fails in the code.  Appending a record
with the new field `Email` to an existing file with header
`[Mobile, added_at]` and one data row does not extend the header and
re-align the old row: the dead `false &&` guard at line 94 makes the call
replace the file with a fresh workbook whose only data row is the new
record, so the previously existing data row is discarded rather than
re-read with an empty `Email` cell. -/
theorem append_new_field_discards_existing_rows :
    appendToDailyExcel [("Mobile", "8888888888"), ("Email", "a@b.c")] "T2"
        (some ⟨["Mobile", "added_at"], [["9999999999", "T1"]]⟩)
      = ⟨["Mobile", "Email", "added_at"], [["8888888888", "a@b.c", "T2"]]⟩ := by decide

/-- C3 counterexample: a file whose first header cell is empty and whose
second header cell holds the (truthy, whitespace-only) value `" "`
matches the repair pattern of line 467, so `repair` reports
`changed = true` - but every header cell trims to the empty string, no
header cell is written, and the first data row `["", "z"]` is promoted
into row 1 of the rebuilt sheet: the resulting file's header's first
cell is empty, and the result matches the corruption pattern again, so
a second `repair` run also reports `changed = true` and rewrites the
file - repair is neither first-cell-restoring nor idempotent on this
input. -/
theorem repair_whitespace_second_cell :
    (repairXlsxFile [⟨["", " "], [["", "z"]]⟩]).2 = true ∧
    firstCell ((repairXlsxFile [⟨["", " "], [["", "z"]]⟩]).1.getD 0 ⟨[], []⟩).header
      = "" ∧
    (repairXlsxFile (repairXlsxFile [⟨["", " "], [["", "z"]]⟩]).1).2 = true := by decide

/-- C4 counterexample: a record issued at time 0 and verified is expired
at `now = 600001` ms (age greater than the 10-minute window): `/verify-otp`
deletes it and fails, but `/submit-loan` never consults the record's age -
it sees `verified = true` and accepts the submission, consuming the
expired record as verified instead of treating the identifier as
unverified. -/
theorem submit_accepts_expired_record :
    (verifyOtp [("9999999999", ⟨"123456", 0, 0, true⟩)] 600001 "9999999999" "123456").1
        = VerifyResult.expired ∧
    (submitLoan [("9999999999", ⟨"123456", 0, 0, true⟩)] "9999999999" true).1
        = SubmitResult.accepted := by decide

/-- C5 counterexample: the `/submit-loan` consumption step does not
unconditionally remove the record.  With an existing but unverified
record the request is rejected and the record stays in the store, and
with a verified record whose ledger append fails the handler jumps to the
`catch` before `otpStore.delete` and the record also stays. -/
theorem consume_keeps_unverified_record :
    submitLoan [("9999999999", ⟨"123456", 0, 0, false⟩)] "9999999999" true
        = (SubmitResult.notVerified, [("9999999999", ⟨"123456", 0, 0, false⟩)]) ∧
    submitLoan [("9999999999", ⟨"123456", 0, 1, true⟩)] "9999999999" false
        = (SubmitResult.appendFailed, [("9999999999", ⟨"123456", 0, 1, true⟩)]) := by decide

/-- C6 counterexample: after exactly 3 mismatched verify attempts the
record is still in the store (with `attempts = 3`), and the next verify
call with the correct code fails with `Too many attempts` - not
`NotFound` as the claim states; the record is only deleted at that fourth
call. -/
theorem fourth_verify_too_many_attempts :
    getOtp (verifyOtp (verifyOtp (verifyOtp
          [("9999999999", ⟨"123456", 0, 0, false⟩)]
          10 "9999999999" "000000").2 20 "9999999999" "000000").2
          30 "9999999999" "000000").2 "9999999999"
      = some ⟨"123456", 0, 3, false⟩ ∧
    (verifyOtp (verifyOtp (verifyOtp (verifyOtp
          [("9999999999", ⟨"123456", 0, 0, false⟩)]
          10 "9999999999" "000000").2 20 "9999999999" "000000").2
          30 "9999999999" "000000").2 40 "9999999999" "123456").1
      = VerifyResult.tooManyAttempts := by decide

/-- C9 counterexample: two rejected `/send-otp` calls for the same live
record at `now = 100` ms and `now = 150` ms (time strictly advancing)
both report `remainingSeconds = 120`, because
`Math.ceil((cooldown - elapsed) / 1000)` is unchanged by a sub-second
advance - `remainingSeconds` is not strictly decreasing as time
advances. -/
theorem cooldown_not_strictly_decreasing :
    (sendOtp [("9999999999", ⟨"111111", 0, 0, false⟩)] 100 "9999999999" "222222").1
        = SendResult.rateLimited 120 ∧
    (sendOtp [("9999999999", ⟨"111111", 0, 0, false⟩)] 150 "9999999999" "222222").1
        = SendResult.rateLimited 120 := by decide

/-! ### Repair: general lemmas -/

/-- A sheet that does not match the shift pattern is returned unchanged
with `changed = false` (the `forEach` body at lines 464-500 does nothing
to it). -/
lemma repairSheet_of_no_pattern (ws : Sheet) (h : hasShiftPattern ws = false) :
    repairSheet ws = (ws, false) := by
  unfold repairSheet
  simp [h]

/-- A sheet matching the shift pattern is always reported as changed. -/
lemma repairSheet_changed_of_pattern {ws : Sheet} (hp : hasShiftPattern ws = true) :
    (repairSheet ws).2 = true := by
  unfold repairSheet
  simp only [hp, if_true]
  split <;> rfl

/-- A sheet `repairSheet` reports as unchanged is returned as-is. -/
lemma repairSheet_of_unchanged {ws : Sheet} (h : (repairSheet ws).2 = false) :
    (repairSheet ws).1 = ws := by
  by_cases hp : hasShiftPattern ws = true
  · rw [repairSheet_changed_of_pattern hp] at h
    exact absurd h (by simp)
  · simp only [Bool.not_eq_true] at hp
    rw [repairSheet_of_no_pattern ws hp]

/-- When `repairXlsxFile` reports no change, the file on disk is exactly
the input file (no sheet was rebuilt and the workbook is not rewritten). -/
lemma repairXlsxFile_of_unchanged {wb : List Sheet}
    (h : (repairXlsxFile wb).2 = false) : (repairXlsxFile wb).1 = wb := by
  unfold repairXlsxFile at *
  simp only at h ⊢
  induction wb with
  | nil => simp
  | cons a l ih =>
    simp only [List.any_cons, Bool.or_eq_false_iff] at h
    simp [repairSheet_of_unchanged h.1, ih h.2]

/-- `repairXlsxFile` on a single-worksheet workbook (the shape this
server writes). -/
lemma repairXlsxFile_singleton (ws : Sheet) :
    repairXlsxFile [ws] = ([(repairSheet ws).1], (repairSheet ws).2) := by
  simp [repairXlsxFile]

/-- On a sheet matching the shift pattern whose second header cell is
non-empty even after trimming, `repairSheet` reports a change, the
rebuilt header's first cell is non-empty, and the result no longer
matches the pattern. -/
lemma repairSheet_of_pattern (ws : Sheet) (h1 : firstCell ws.header = "")
    (h2 : secondCell ws.header ≠ "") (h3 : jsTrim (secondCell ws.header) ≠ "") :
    (repairSheet ws).2 = true ∧ firstCell (repairSheet ws).1.header ≠ "" ∧
    hasShiftPattern (repairSheet ws).1 = false := by
  have hp : hasShiftPattern ws = true := by
    simp [hasShiftPattern, h1, h2]
  have hmem : jsTrim (secondCell ws.header) ∈ (ws.header.map jsTrim).filter (· ≠ "") := by
    apply List.mem_filter.mpr
    refine ⟨List.mem_map_of_mem _ ?_, by simpa using h3⟩
    cases hh : ws.header with
    | nil => rw [hh] at h2; simp [secondCell] at h2
    | cons a t =>
      cases t with
      | nil => rw [hh] at h2; simp [secondCell] at h2
      | cons b t2 =>
        simp only [secondCell, List.getD_cons_succ, List.getD_cons_zero]
        exact List.mem_cons_of_mem a (List.mem_cons_self b t2)
  have hne : (ws.header.map jsTrim).filter (· ≠ "") ≠ [] := by
    intro h0
    rw [h0] at hmem
    exact absurd hmem (List.not_mem_nil _)
  have heq : (repairSheet ws).1.header = (ws.header.map jsTrim).filter (· ≠ "") ∧
      (repairSheet ws).2 = true := by
    unfold repairSheet
    simp only [hp, if_true]
    rw [if_neg hne]
    exact ⟨rfl, rfl⟩
  have hfc : firstCell (repairSheet ws).1.header ≠ "" := by
    rw [heq.1]
    cases hnh : (ws.header.map jsTrim).filter (· ≠ "") with
    | nil => exact absurd hnh hne
    | cons c t =>
      have hc : c ∈ (ws.header.map jsTrim).filter (· ≠ "") := by
        rw [hnh]
        exact List.mem_cons_self c t
      have hc' : c ≠ "" := by simpa using (List.mem_filter.mp hc).2
      simpa [firstCell] using hc'
  refine ⟨heq.2, hfc, ?_⟩
  simp [hasShiftPattern, hfc]

/-- C3 (amended): repair is targeted, and idempotent on the files it can
actually restore.  For every file whose first header cell is
empty/missing while its second header cell holds a value whose trimmed
form is non-empty, repair reports `changed = true`, produces a file
whose header's first cell is non-empty, and a second run on that result
reports `changed = false` and leaves it untouched (both per sheet and
for the single-worksheet workbook).  Any sheet without the
empty-first/truthy-second pattern is left untouched with
`changed = false`, and a run that reports no change never rewrites the
file.  When the second header cell is whitespace-only, however, repair
still reports a change but every header cell trims away, the first data
row is promoted into the header row, the result can match the pattern
again, and repair is not idempotent (see the counterexample). -/
theorem repair_targeted_and_idempotent (wb : List Sheet) (ws : Sheet)
    (h1 : firstCell ws.header = "") (h2 : secondCell ws.header ≠ "")
    (h3 : jsTrim (secondCell ws.header) ≠ "") :
    ((repairSheet ws).2 = true ∧ firstCell (repairSheet ws).1.header ≠ "") ∧
    repairSheet (repairSheet ws).1 = ((repairSheet ws).1, false) ∧
    repairXlsxFile (repairXlsxFile [ws]).1 = ((repairXlsxFile [ws]).1, false) ∧
    (∀ ws2 : Sheet, hasShiftPattern ws2 = false → repairSheet ws2 = (ws2, false)) ∧
    ((repairXlsxFile wb).2 = false → (repairXlsxFile wb).1 = wb) := by
  obtain ⟨hch, hfc, hnp⟩ := repairSheet_of_pattern ws h1 h2 h3
  have hidem : repairSheet (repairSheet ws).1 = ((repairSheet ws).1, false) :=
    repairSheet_of_no_pattern _ hnp
  refine ⟨⟨hch, hfc⟩, hidem, ?_,
    fun ws2 h => repairSheet_of_no_pattern ws2 h,
    fun h => repairXlsxFile_of_unchanged h⟩
  have hx1 : (repairXlsxFile [ws]).1 = [(repairSheet ws).1] := by
    rw [repairXlsxFile_singleton]
  rw [hx1, repairXlsxFile_singleton, hidem]

/-- C3 witness: the amended repair theorem evaluated on the concrete
shifted file `⟨["", "Mobile", "added_at"], [["", "9999999999", "T1"]]⟩`
and on a clean workbook. -/
theorem repair_targeted_and_idempotent_witness :
    ((repairSheet ⟨["", "Mobile", "added_at"], [["", "9999999999", "T1"]]⟩).2 = true ∧
     firstCell (repairSheet
       ⟨["", "Mobile", "added_at"], [["", "9999999999", "T1"]]⟩).1.header ≠ "") ∧
    repairSheet (repairSheet
        ⟨["", "Mobile", "added_at"], [["", "9999999999", "T1"]]⟩).1
      = ((repairSheet ⟨["", "Mobile", "added_at"], [["", "9999999999", "T1"]]⟩).1,
         false) ∧
    repairXlsxFile
        (repairXlsxFile [(⟨["", "Mobile", "added_at"],
          [["", "9999999999", "T1"]]⟩ : Sheet)]).1
      = ((repairXlsxFile [(⟨["", "Mobile", "added_at"],
          [["", "9999999999", "T1"]]⟩ : Sheet)]).1, false) ∧
    repairSheet ⟨["Mobile", "added_at"], [["9999999999", "T1"]]⟩
      = (⟨["Mobile", "added_at"], [["9999999999", "T1"]]⟩, false) ∧
    (repairXlsxFile [(⟨["Mobile", "added_at"],
        [["9999999999", "T1"]]⟩ : Sheet)]).1
      = [(⟨["Mobile", "added_at"], [["9999999999", "T1"]]⟩ : Sheet)] :=
  ⟨(repair_targeted_and_idempotent
     [(⟨["Mobile", "added_at"], [["9999999999", "T1"]]⟩ : Sheet)]
     ⟨["", "Mobile", "added_at"], [["", "9999999999", "T1"]]⟩
     (by decide) (by decide) (by decide)).1,
   (repair_targeted_and_idempotent
     [(⟨["Mobile", "added_at"], [["9999999999", "T1"]]⟩ : Sheet)]
     ⟨["", "Mobile", "added_at"], [["", "9999999999", "T1"]]⟩
     (by decide) (by decide) (by decide)).2.1,
   (repair_targeted_and_idempotent
     [(⟨["Mobile", "added_at"], [["9999999999", "T1"]]⟩ : Sheet)]
     ⟨["", "Mobile", "added_at"], [["", "9999999999", "T1"]]⟩
     (by decide) (by decide) (by decide)).2.2.1,
   (repair_targeted_and_idempotent
     [(⟨["Mobile", "added_at"], [["9999999999", "T1"]]⟩ : Sheet)]
     ⟨["", "Mobile", "added_at"], [["", "9999999999", "T1"]]⟩
     (by decide) (by decide) (by decide)).2.2.2.1
     ⟨["Mobile", "added_at"], [["9999999999", "T1"]]⟩ (by decide),
   (repair_targeted_and_idempotent
     [(⟨["Mobile", "added_at"], [["9999999999", "T1"]]⟩ : Sheet)]
     ⟨["", "Mobile", "added_at"], [["", "9999999999", "T1"]]⟩
     (by decide) (by decide) (by decide)).2.2.2.2 (by decide)⟩

/-! ### OTP store: general lemmas and claim theorems -/

/-- After `otpStore.delete(m)`, `otpStore.get(m)` finds nothing. -/
lemma getOtp_delOtp : ∀ (s : Store) (m : String), getOtp (delOtp s m) m = none
  | [], _ => rfl
  | (k, d) :: rest, m => by
    by_cases h : k = m
    · simp [delOtp, h, getOtp_delOtp rest m]
    · simp [delOtp, getOtp, h, getOtp_delOtp rest m]

/-- C4 (amended): expiry is enforced lazily and only by `/verify-otp`.
A record whose age exceeds the 10-minute window is treated as absent by
verify, which deletes it and fails with the expired error; the
submission-acceptance check of `/submit-loan` does not consult the
record's age, so an expired record that was verified is still consumed
as verified and the submission is accepted. -/
theorem verify_expiry_lazy (s : Store) (m c : String) (d : OtpData) (now : Nat)
    (hm : m ≠ "") (hc : c ≠ "") (hlk : getOtp s m = some d)
    (hexp : now - d.timestamp > 10 * 60 * 1000) :
    verifyOtp s now m c = (.expired, delOtp s m) ∧
    (d.verified = true → submitLoan s m true = (.accepted, delOtp s m)) := by
  constructor
  · simp [verifyOtp, hm, hc, hlk, hexp]
  · intro hv
    simp [submitLoan, hlk, hv]

/-- C4 witness: the lazy-expiry theorem at the concrete expired, verified
record of the counterexample. -/
theorem verify_expiry_lazy_witness :
    verifyOtp [("9999999999", ⟨"123456", 0, 0, true⟩)] 600001 "9999999999" "123456"
        = (VerifyResult.expired, []) ∧
    submitLoan [("9999999999", ⟨"123456", 0, 0, true⟩)] "9999999999" true
        = (SubmitResult.accepted, []) :=
  ⟨(verify_expiry_lazy [("9999999999", ⟨"123456", 0, 0, true⟩)] "9999999999" "123456"
      ⟨"123456", 0, 0, true⟩ 600001 (by decide) (by decide) (by decide) (by decide)).1,
   (verify_expiry_lazy [("9999999999", ⟨"123456", 0, 0, true⟩)] "9999999999" "123456"
      ⟨"123456", 0, 0, true⟩ 600001 (by decide) (by decide) (by decide) (by decide)).2
     (by decide)⟩

/-- C5 (amended): the `/submit-loan` consumption step answers whether a
record existed and was verified, but removes the record only on the
success path: a verified record with a successful ledger append is
deleted; a missing or unverified record leaves the store untouched (and
the submission is rejected); a verified record whose append fails is
also left in place. -/
theorem submit_consume_conditional (s1 s2 s3 : Store) (m : String) (d1 d3 : OtpData)
    (h1 : getOtp s1 m = some d1) (hv1 : d1.verified = true)
    (h2 : getOtp s2 m = none ∨ ∃ d, getOtp s2 m = some d ∧ d.verified = false)
    (h3 : getOtp s3 m = some d3) (hv3 : d3.verified = true) :
    submitLoan s1 m true = (.accepted, delOtp s1 m) ∧
    submitLoan s2 m true = (.notVerified, s2) ∧
    submitLoan s2 m false = (.notVerified, s2) ∧
    submitLoan s3 m false = (.appendFailed, s3) := by
  refine ⟨by simp [submitLoan, h1, hv1], ?_, ?_, by simp [submitLoan, h3, hv3]⟩ <;>
  · rcases h2 with h2 | ⟨d, hd, hdv⟩
    · simp [submitLoan, h2]
    · simp [submitLoan, hd, hdv]

/-- C5 witness: the conditional-consumption theorem at concrete stores
(verified with append success, unverified, verified with append
failure). -/
theorem submit_consume_conditional_witness :
    submitLoan [("9999999999", ⟨"123456", 0, 0, true⟩)] "9999999999" true
        = (SubmitResult.accepted, []) ∧
    submitLoan [("9999999999", ⟨"123456", 0, 0, false⟩)] "9999999999" true
        = (SubmitResult.notVerified, [("9999999999", ⟨"123456", 0, 0, false⟩)]) ∧
    submitLoan [("9999999999", ⟨"123456", 0, 0, false⟩)] "9999999999" false
        = (SubmitResult.notVerified, [("9999999999", ⟨"123456", 0, 0, false⟩)]) ∧
    submitLoan [("9999999999", ⟨"123456", 0, 1, true⟩)] "9999999999" false
        = (SubmitResult.appendFailed, [("9999999999", ⟨"123456", 0, 1, true⟩)]) :=
  submit_consume_conditional
    [("9999999999", ⟨"123456", 0, 0, true⟩)]
    [("9999999999", ⟨"123456", 0, 0, false⟩)]
    [("9999999999", ⟨"123456", 0, 1, true⟩)]
    "9999999999" ⟨"123456", 0, 0, true⟩ ⟨"123456", 0, 1, true⟩
    (by decide) (by decide)
    (Or.inr ⟨⟨"123456", 0, 0, false⟩, by decide, by decide⟩)
    (by decide) (by decide)

/-- C6 (amended): a mismatched verify below the attempt limit keeps the
record and increments `attempts`, so after 3 mismatches the record is
still stored with `attempts = 3`; the next verify call - even with the
correct code - then fails with `TooManyAttempts` and deletes the record,
and only verify calls after that one fail with `NotFound`. -/
theorem verify_attempt_exhaustion (s1 s2 : Store) (m c r : String) (d1 d2 : OtpData)
    (t1 t2 t3 : Nat) (hm : m ≠ "") (hc : c ≠ "") (hr : r ≠ "")
    (h1 : getOtp s1 m = some d1) (he1 : ¬(t1 - d1.timestamp > 10 * 60 * 1000))
    (ha1 : d1.attempts < 3) (hx1 : d1.otp ≠ jsTrim c)
    (h2 : getOtp s2 m = some d2) (he2 : ¬(t2 - d2.timestamp > 10 * 60 * 1000))
    (ha2 : d2.attempts ≥ 3) (_hok : d2.otp = jsTrim r) :
    verifyOtp s1 t1 m c
        = (.mismatch, setOtp s1 m { d1 with attempts := d1.attempts + 1 }) ∧
    verifyOtp s2 t2 m r = (.tooManyAttempts, delOtp s2 m) ∧
    verifyOtp (delOtp s2 m) t3 m r = (.notFound, delOtp s2 m) := by
  refine ⟨?_, ?_, ?_⟩
  · have ha1' : ¬(d1.attempts ≥ 3) := by omega
    simp [verifyOtp, hm, hc, h1, he1, ha1', hx1]
  · simp [verifyOtp, hm, hr, h2, he2, ha2]
  · simp [verifyOtp, hm, hr, getOtp_delOtp]

/-- C6 witness: the exhaustion theorem at a concrete record with
`attempts = 0` (mismatch path) and `attempts = 3` (lock-out path). -/
theorem verify_attempt_exhaustion_witness :
    verifyOtp [("9999999999", ⟨"123456", 0, 0, false⟩)] 10 "9999999999" "000000"
        = (VerifyResult.mismatch, [("9999999999", ⟨"123456", 0, 1, false⟩)]) ∧
    verifyOtp [("9999999999", ⟨"123456", 0, 3, false⟩)] 20 "9999999999" "123456"
        = (VerifyResult.tooManyAttempts, []) ∧
    verifyOtp [] 30 "9999999999" "123456" = (VerifyResult.notFound, []) :=
  verify_attempt_exhaustion
    [("9999999999", ⟨"123456", 0, 0, false⟩)] [("9999999999", ⟨"123456", 0, 3, false⟩)]
    "9999999999" "000000" "123456" ⟨"123456", 0, 0, false⟩ ⟨"123456", 0, 3, false⟩
    10 20 30 (by decide) (by decide) (by decide) (by decide) (by decide) (by decide)
    (by decide) (by decide) (by decide) (by decide) (by decide)

/-- C9 (amended): while a live record is inside the 2-minute resend
cooldown, every further `/send-otp` call is rejected with status 429
carrying `remainingSeconds = ceil((cooldown - elapsed) / 1000)`, a
positive value; as time advances between successive rejected calls
`remainingSeconds` is non-increasing, and it is strictly decreasing
whenever at least 1000 ms elapse between the calls (a sub-second advance
can leave it unchanged). -/
theorem cooldown_rate_limited_monotone (s : Store) (m o1 o2 : String) (d : OtpData)
    (t1 t2 : Nat) (hm : validMobile m = true) (hlk : getOtp s m = some d)
    (hle : d.timestamp ≤ t1) (h12 : t1 ≤ t2)
    (hcd : t2 - d.timestamp < OTP_RESEND_COOLDOWN) :
    sendOtp s t1 m o1 = (.rateLimited (cooldownRemaining (t1 - d.timestamp)), s) ∧
    sendOtp s t2 m o2 = (.rateLimited (cooldownRemaining (t2 - d.timestamp)), s) ∧
    1 ≤ cooldownRemaining (t2 - d.timestamp) ∧
    cooldownRemaining (t2 - d.timestamp) ≤ cooldownRemaining (t1 - d.timestamp) ∧
    (t1 + 1000 ≤ t2 →
      cooldownRemaining (t2 - d.timestamp) < cooldownRemaining (t1 - d.timestamp)) := by
  have hcd1 : t1 - d.timestamp < OTP_RESEND_COOLDOWN := by
    simp only [OTP_RESEND_COOLDOWN] at *; omega
  refine ⟨by simp [sendOtp, hm, hlk, hcd1], by simp [sendOtp, hm, hlk, hcd], ?_, ?_, ?_⟩
  · simp only [cooldownRemaining, OTP_RESEND_COOLDOWN] at *; omega
  · simp only [cooldownRemaining, OTP_RESEND_COOLDOWN] at *; omega
  · intro hstep
    simp only [cooldownRemaining, OTP_RESEND_COOLDOWN] at *; omega

/-- C9 witness: the cooldown theorem at a record issued at time 0 with
rejected re-issue calls at 0 ms and 1000 ms; the strict-decrease branch
is discharged at these inputs (120 seconds, then 119). -/
theorem cooldown_rate_limited_monotone_witness :
    sendOtp [("9999999999", ⟨"111111", 0, 0, false⟩)] 0 "9999999999" "222222"
        = (SendResult.rateLimited 120, [("9999999999", ⟨"111111", 0, 0, false⟩)]) ∧
    sendOtp [("9999999999", ⟨"111111", 0, 0, false⟩)] 1000 "9999999999" "333333"
        = (SendResult.rateLimited 119, [("9999999999", ⟨"111111", 0, 0, false⟩)]) ∧
    (119 : Nat) < 120 :=
  ⟨(cooldown_rate_limited_monotone [("9999999999", ⟨"111111", 0, 0, false⟩)]
      "9999999999" "222222" "333333" ⟨"111111", 0, 0, false⟩ 0 1000
      (by decide) (by decide) (by decide) (by decide) (by decide)).1,
   (cooldown_rate_limited_monotone [("9999999999", ⟨"111111", 0, 0, false⟩)]
      "9999999999" "222222" "333333" ⟨"111111", 0, 0, false⟩ 0 1000
      (by decide) (by decide) (by decide) (by decide) (by decide)).2.1,
   by decide⟩

/-- C10: for a live record (present, within the expiry window, attempt
limit not reached) `/verify-otp` succeeds exactly when the submitted
code, stripped of leading and trailing whitespace, equals the stored
code; on success the record is marked verified.  In particular a
submitted code differing from the stored one only by surrounding
whitespace is accepted. -/
theorem verify_compares_trimmed (s : Store) (m : String) (d : OtpData) (now : Nat)
    (hm : m ≠ "") (hd : d.otp ≠ "") (hlk : getOtp s m = some d)
    (hexp : ¬(now - d.timestamp > 10 * 60 * 1000)) (hatt : d.attempts < 3) :
    (∀ c : String, (verifyOtp s now m c).1 = .ok ↔ jsTrim c = d.otp) ∧
    (∀ c : String, jsTrim c = d.otp →
      verifyOtp s now m c = (.ok, setOtp s m { d with verified := true })) := by
  have hatt' : ¬(d.attempts ≥ 3) := by omega
  have hmain : ∀ c : String, (verifyOtp s now m c).1 = .ok ↔ jsTrim c = d.otp := by
    intro c
    by_cases hc : c = ""
    · subst hc
      have : jsTrim "" = "" := by decide
      simp [verifyOtp, hm, this, Ne.symm hd]
    · by_cases heq : d.otp = jsTrim c
      · simp [verifyOtp, hm, hc, hlk, hexp, hatt', heq]
      · simp [verifyOtp, hm, hc, hlk, hexp, hatt', heq, Ne.symm heq]
  refine ⟨hmain, fun c hc => ?_⟩
  have hc' : c ≠ "" := by
    intro h0
    subst h0
    rw [show jsTrim "" = "" by decide] at hc
    exact hd hc.symm
  simp [verifyOtp, hm, hc', hlk, hexp, hatt', hc.symm]

/-- C10 witness: the trimming theorem at a concrete live record with a
whitespace-padded submitted code. -/
theorem verify_compares_trimmed_witness :
    ((verifyOtp [("9999999999", ⟨"123456", 5, 1, false⟩)] 10 "9999999999"
        "  123456  ").1 = VerifyResult.ok ↔ jsTrim "  123456  " = "123456") ∧
    verifyOtp [("9999999999", ⟨"123456", 5, 1, false⟩)] 10 "9999999999" "  123456  "
        = (VerifyResult.ok, [("9999999999", ⟨"123456", 5, 1, true⟩)]) :=
  ⟨(verify_compares_trimmed [("9999999999", ⟨"123456", 5, 1, false⟩)] "9999999999"
      ⟨"123456", 5, 1, false⟩ 10 (by decide) (by decide) (by decide) (by decide)
      (by decide)).1 "  123456  ",
   (verify_compares_trimmed [("9999999999", ⟨"123456", 5, 1, false⟩)] "9999999999"
      ⟨"123456", 5, 1, false⟩ 10 (by decide) (by decide) (by decide) (by decide)
      (by decide)).2 "  123456  " (by decide)⟩

/-! ### Concurrency gate: claim theorem -/

/-- `releaseEmailSlot` on an empty queue: the active count just drops. -/
lemma releaseEmailSlot_nil {g : Gate} (h : g.queue = []) :
    releaseEmailSlot g = (⟨g.active - 1, []⟩, none) := by
  unfold releaseEmailSlot
  rw [h]

/-- `releaseEmailSlot` with waiters: the head of the queue is resumed and
the active count is re-incremented. -/
lemma releaseEmailSlot_cons {g : Gate} {w : Nat} {rest : List Nat}
    (h : g.queue = w :: rest) :
    releaseEmailSlot g = (⟨g.active - 1 + 1, rest⟩, some w) := by
  unfold releaseEmailSlot
  rw [h]

/-- Invariant of the admission gate: in every reachable state the number
of held slots never exceeds the limit, and whenever the queue is
non-empty every slot is held (no slot is idle while a waiter exists). -/
lemma gateReach_invariant (limit : Nat) (g : Gate) (h : GateReach limit g) :
    g.active ≤ limit ∧ (g.queue ≠ [] → g.active = limit) := by
  induction h with
  | init => simp
  | acquire g w hg ih =>
    unfold acquireEmailSlot
    by_cases hl : g.active < limit
    · simp only [hl, if_true]
      refine ⟨by omega, fun hq => ?_⟩
      have := ih.2 hq
      omega
    · simp only [hl, if_false]
      exact ⟨ih.1, fun _ => by omega⟩
  | release g hg hact ih =>
    cases hq : g.queue with
    | nil =>
      rw [releaseEmailSlot_nil hq]
      dsimp only
      have := ih.1
      exact ⟨by omega, by simp⟩
    | cons w rest =>
      have hlim := ih.2 (by simp [hq])
      rw [releaseEmailSlot_cons hq]
      dsimp only
      exact ⟨by omega, fun _ => by omega⟩

/-- C7: in every state of the gate reachable by any interleaving of
`acquireEmailSlot` and `releaseEmailSlot` (releases being performed by
slot holders), the number of in-flight sends `emailActive` never exceeds
the configured limit and no slot is idle while the queue is non-empty;
and a release performed while callers wait hands the freed slot directly
to the head of the FIFO queue (the longest-waiting caller), leaving
`emailActive` unchanged. -/
theorem gate_bounded_and_fifo (limit : Nat) (g : Gate) (h : GateReach limit g) :
    (g.active ≤ limit ∧ (g.queue ≠ [] → g.active = limit)) ∧
    (∀ w rest, g.queue = w :: rest → 1 ≤ g.active →
      releaseEmailSlot g = (⟨g.active, rest⟩, some w)) := by
  refine ⟨gateReach_invariant limit g h, fun w rest hq hact => ?_⟩
  rw [releaseEmailSlot_cons hq]
  have h1 : g.active - 1 + 1 = g.active := by omega
  rw [h1]

/-- C7 witness: the gate theorem at the concrete reachable state
`⟨active = 2, queue = [12]⟩` of a limit-2 gate (three acquires from the
initial state: callers 10 and 11 admitted, caller 12 queued), including
the FIFO hand-off of a release in that state. -/
theorem gate_bounded_and_fifo_witness :
    ((Gate.mk 2 [12]).active ≤ 2 ∧
      ((Gate.mk 2 [12]).queue ≠ [] → (Gate.mk 2 [12]).active = 2)) ∧
    releaseEmailSlot ⟨2, [12]⟩ = (⟨2, []⟩, some 12) := by
  have hreach : GateReach 2 ⟨2, [12]⟩ := by
    have h0 : GateReach 2 ⟨0, []⟩ := GateReach.init
    have h1 : GateReach 2 ⟨1, []⟩ := GateReach.acquire ⟨0, []⟩ 10 h0
    have h2 : GateReach 2 ⟨2, []⟩ := GateReach.acquire ⟨1, []⟩ 11 h1
    exact GateReach.acquire ⟨2, []⟩ 12 h2
  have h := gate_bounded_and_fifo 2 ⟨2, [12]⟩ hreach
  exact ⟨h.1, h.2 12 [] rfl (by decide)⟩

/-! ### Retrying sender: claim theorem -/

/-- Retry loop, success case: if attempt `i + k` succeeds and attempts
`i`..`i + k - 1` fail, the loop (entered at iteration `i` with at least
`k + 1` iterations left) returns the success immediately after attempt
`i + k`, having slept `2^j * 1000` ms after each failed attempt `j`. -/
lemma sendWithRetryGo_ok (oracle : Nat → Except String String) (es : Nat → String)
    (info : String) :
    ∀ (k i r : Nat) (le : Option String), k < r → oracle (i + k) = .ok info →
      (∀ j, j < k → oracle (i + j) = .error (es (i + j))) →
      sendWithRetryGo oracle i r le
        = (.ok info, (List.range' i k).map (fun j => 2 ^ j * 1000))
  | 0, i, r, le, hk, hok, _ => by
    match r, hk with
    | rr + 1, _ =>
      have hok' : oracle i = .ok info := by simpa using hok
      simp [sendWithRetryGo, hok']
  | k + 1, i, r, le, hk, hok, hf => by
    match r, hk with
    | rr + 1, hk =>
      have h0 : oracle i = .error (es i) := by simpa using hf 0 (by omega)
      have hok' : oracle ((i + 1) + k) = .ok info := by
        rw [show (i + 1) + k = i + (k + 1) by omega]
        exact hok
      have hf' : ∀ j, j < k → oracle ((i + 1) + j) = .error (es ((i + 1) + j)) := by
        intro j hj
        rw [show (i + 1) + j = i + (j + 1) by omega]
        exact hf (j + 1) (by omega)
      have ih := sendWithRetryGo_ok oracle es info k (i + 1) rr (some (es i))
        (by omega) hok' hf'
      simp [sendWithRetryGo, h0, ih, List.range'_succ]

/-- Retry loop, failure case: if attempts `i`..`i + r - 1` all fail, the
loop returns `{ok:false}` carrying the last error and sleeps `2^j * 1000`
ms after every failed attempt `j`, including the last one. -/
lemma sendWithRetryGo_fail (oracle : Nat → Except String String) (es : Nat → String) :
    ∀ (r i : Nat) (le : Option String),
      (∀ j, j < r → oracle (i + j) = .error (es (i + j))) →
      sendWithRetryGo oracle i r le
        = (.error (if r = 0 then le else some (es (i + r - 1))),
           (List.range' i r).map (fun j => 2 ^ j * 1000))
  | 0, i, le, _ => by simp [sendWithRetryGo]
  | r + 1, i, le, hf => by
    have h0 : oracle i = .error (es i) := by simpa using hf 0 (by omega)
    have hf' : ∀ j, j < r → oracle ((i + 1) + j) = .error (es ((i + 1) + j)) := by
      intro j hj
      rw [show (i + 1) + j = i + (j + 1) by omega]
      exact hf (j + 1) (by omega)
    have ih := sendWithRetryGo_fail oracle es r (i + 1) (some (es i)) hf'
    have hstep : sendWithRetryGo oracle i (r + 1) le
        = ((sendWithRetryGo oracle (i + 1) r (some (es i))).1,
           2 ^ i * 1000 :: (sendWithRetryGo oracle (i + 1) r (some (es i))).2) := by
      simp [sendWithRetryGo, h0]
    rw [hstep, ih, if_neg (by omega : ¬(r + 1 = 0)), List.range'_succ, List.map_cons]
    by_cases hr : r = 0
    · subst hr
      simp [List.range']
    · rw [if_neg hr]
      have h2 : i + 1 + r - 1 = i + (r + 1) - 1 := by omega
      rw [h2]

/-- C8: retry and release behaviour of an admitted send.  With `n`
configured attempts: a run whose first success is attempt `k < n`
(attempts `0..k-1` failing) reports success with exactly the back-off
sleeps `2^0*1000, ..., 2^(k-1)*1000` ms (remaining retries are
short-circuited); a run whose `n` attempts all fail reports failure
carrying the last attempt's error; and in both cases
`sendDailyEmailForDate` (entered with a free slot and no waiters)
returns the e-mail gate to its initial state - the slot is released in a
`finally`, whether the send succeeded or failed. -/
theorem retry_backoff_and_release
    (o1 o2 : Nat → Except String String) (es : Nat → String) (info : String)
    (n k limit : Nat) (g : Gate)
    (hk : k < n) (hok : o1 k = .ok info)
    (hf1 : ∀ j, j < k → o1 j = .error (es j))
    (hf2 : ∀ j, j < n → o2 j = .error (es j)) (hn : 1 ≤ n)
    (hq : g.queue = []) (ha : g.active < limit) :
    sendWithRetry o1 n = (.ok info, (List.range k).map (fun j => 2 ^ j * 1000)) ∧
    sendWithRetry o2 n
      = (.error (some (es (n - 1))), (List.range n).map (fun j => 2 ^ j * 1000)) ∧
    sendDailyEmailForDate limit g true o1 n = some (.okSent, g) ∧
    sendDailyEmailForDate limit g true o2 n
      = some (.failedSend (some (es (n - 1))), g) := by
  have h1 : sendWithRetry o1 n
      = (.ok info, (List.range k).map (fun j => 2 ^ j * 1000)) := by
    rw [List.range_eq_range']
    exact sendWithRetryGo_ok o1 es info k 0 n none hk (by simpa using hok)
      (fun j hj => by simpa using hf1 j hj)
  have h2 : sendWithRetry o2 n
      = (.error (some (es (n - 1))), (List.range n).map (fun j => 2 ^ j * 1000)) := by
    rw [List.range_eq_range']
    have := sendWithRetryGo_fail o2 es n 0 none (fun j hj => by simpa using hf2 j hj)
    rw [sendWithRetry, this]
    have hn0 : ¬(n = 0) := by omega
    simp [hn0]
  have hrel : (releaseEmailSlot { g with active := g.active + 1 }).1 = g := by
    rw [releaseEmailSlot_nil (g := { g with active := g.active + 1 }) (by simpa using hq)]
    dsimp only
    cases g with
    | mk a q =>
      simp only at hq
      subst hq
      simp
  refine ⟨h1, h2, ?_, ?_⟩
  · simp [sendDailyEmailForDate, ha, h1, hrel]
  · simp [sendDailyEmailForDate, ha, h2, hrel]

/-- C8 witness: the retry theorem at `n = 3` attempts with a sender that
succeeds on the third attempt (`o1`, back-offs 1000 ms and 2000 ms) and
one that always fails (`o2`, back-offs 1000, 2000, 4000 ms), started at
an idle limit-2 gate. -/
theorem retry_backoff_and_release_witness :
    sendWithRetry (fun j => if j = 2 then .ok "sent" else .error "boom") 3
        = (.ok "sent", [1000, 2000]) ∧
    sendWithRetry (fun _ => .error "boom") 3
        = (.error (some "boom"), [1000, 2000, 4000]) ∧
    sendDailyEmailForDate 2 ⟨0, []⟩ true
        (fun j => if j = 2 then .ok "sent" else .error "boom") 3
        = some (.okSent, ⟨0, []⟩) ∧
    sendDailyEmailForDate 2 ⟨0, []⟩ true (fun _ => .error "boom") 3
        = some (.failedSend (some "boom"), ⟨0, []⟩) := by
  have h := retry_backoff_and_release
    (fun j => if j = 2 then .ok "sent" else .error "boom") (fun _ => .error "boom")
    (fun _ => "boom") "sent" 3 2 2 ⟨0, []⟩
    (by decide) rfl
    (fun j hj => by interval_cases j <;> rfl)
    (fun j hj => rfl)
    (by decide) rfl (by decide)
  refine ⟨?_, ?_, ?_, ?_⟩
  · rw [h.1]; rfl
  · rw [h.2.1]; rfl
  · rw [h.2.2.1]
  · rw [h.2.2.2]
